import Mathlib

/-!
Shallow embedding of `code_reviewer.py`, a script that fetches the latest open
pull request of a GitHub repository, asks the Gemini API for a review of its
diff, and posts the review back as a PR comment.

Modelling conventions:

* Python exceptions are modelled with `Except PyExc`.  Exceptions that the
  source code provably catches (`requests.exceptions.RequestException` and its
  subclasses `HTTPError`, `Timeout`, `ConnectionError`, `JSONDecodeError`, and
  the catch-all `except Exception` in `get_gemini_review`) never escape a
  function, so `PyExc` only needs the exception kinds that can actually
  propagate: `KeyError`, `TypeError`, `IndexError`, `AttributeError`.
* Each outgoing network interaction is reified as a `NetCall` value; every
  function returns the list of network calls it performed, so that claims
  about "no network call is made" are statements about that list.
* The outcome of each external interaction (GitHub HTTP endpoints, the Gemini
  SDK call) is an input of the model (`HttpOutcome` / `GeminiOutcome`), so all
  theorems quantify over every possible external behaviour.
* `requests.Response.raise_for_status` raises `HTTPError` exactly when
  `400 <= status_code < 600` (this is its documented and implemented
  behaviour); `response.json()` on an unparseable body raises
  `requests.exceptions.JSONDecodeError`, a subclass of `RequestException`
  (requests >= 2.27, which the google-generativeai dependency implies).
* Python truthiness (`if not pull_requests`, `if not pr_number`,
  `if pr_diff`, `if review`, `if not diff`) is modelled by `Json.truthy` /
  emptiness checks on strings.
* Console output is modelled only where a claim depends on it (the missing
  environment-variable diagnostic and the missing-PR diagnostic in `main`);
  the remaining prints are operator-visibility messages the spec declares
  non-contractual.
-/

namespace CodeReviewer

/-- JSON values, the shape of parsed GitHub API response bodies. -/
inductive Json where
  | null : Json
  | bool : Bool → Json
  | num : Int → Json
  | str : String → Json
  | arr : List Json → Json
  | obj : List (String × Json) → Json

/-- Python exceptions that can propagate out of the script's functions
(everything the code catches is handled inside the step models and never
appears here). -/
inductive PyExc where
  | keyError : String → PyExc
  | typeError : PyExc
  | indexError : PyExc
  | attributeError : PyExc
  deriving DecidableEq

/-- Outcome of one `requests.get` / `requests.post` call, supplied by the
environment: the call may time out, fail at transport level, or return a
response with a status code, a body text, and the result of parsing the body
as JSON (`none` when the body is not valid JSON). -/
inductive HttpOutcome where
  | timeout : HttpOutcome
  | netError : HttpOutcome
  | resp : Nat → String → Option Json → HttpOutcome

/-- Outcome of the Gemini SDK interaction in `get_gemini_review`: an exception
before `model.generate_content` is reached (e.g. in `genai.configure`), an
exception during/after the call (auth failure, quota, malformed response,
blocked `response.text`), or a successful reply text. -/
inductive GeminiOutcome where
  | excBeforeCall : GeminiOutcome
  | excDuringCall : GeminiOutcome
  | reply : String → GeminiOutcome
  deriving DecidableEq

/-- One outgoing network interaction, with the arguments that determine the
request, including the `timeout=` argument passed to `requests`. -/
inductive NetCall where
  | listPulls : String → String → String → Nat → NetCall
  | fetchDiff : String → String → Json → String → Nat → NetCall
  | geminiCall : String → NetCall
  | postComment : String → String → Json → String → String → Nat → NetCall

/-- `raise_for_status` raises `HTTPError` iff the status code is in 400..599. -/
def errorStatus (s : Nat) : Bool := 400 ≤ s && s < 600

/-- Python truthiness of a parsed JSON value (empty list, empty dict, empty
string, zero, `false` and `None` are falsy). -/
def Json.truthy : Json → Bool
  | .null => false
  | .bool b => b
  | .num n => n != 0
  | .str s => s != ""
  | .arr xs => !xs.isEmpty
  | .obj kvs => !kvs.isEmpty

/-- Last-occurrence association lookup: Python dicts built by `json.loads`
keep the last value for a duplicated key. -/
def lookupLast (k : String) : List (String × Json) → Option Json
  | [] => none
  | (k2, v) :: rest =>
    match lookupLast k rest with
    | some v2 => some v2
    | none => if k2 = k then some v else none

/-- Python subscript `x[0]` on a parsed JSON value: first element of a list,
first character of a string (as a 1-character string), `KeyError` on a dict
(JSON object keys are strings, never the int `0`), `TypeError` otherwise. -/
def Json.index0 : Json → Except PyExc Json
  | .arr [] => .error .indexError
  | .arr (x :: _) => .ok x
  | .str s =>
    match s.toList with
    | [] => .error .indexError
    | c :: _ => .ok (.str (String.mk [c]))
  | .obj _ => .error (.keyError "0")
  | _ => .error .typeError

/-- Python subscript `x['number']` on a parsed JSON value: dict lookup
(`KeyError` when the key is absent), `TypeError` on anything else (strings and
lists reject string indices). -/
def Json.getItem (j : Json) (k : String) : Except PyExc Json :=
  match j with
  | .obj kvs =>
    match lookupLast k kvs with
    | some v => .ok v
    | none => .error (.keyError k)
  | _ => .error .typeError

/-- Embedding of `get_latest_pr_number(owner, repo, token)`.

The function performs one `requests.get(url, headers, params, timeout=15)`.
`except requests.exceptions.RequestException` catches transport errors,
timeouts, the `HTTPError` from `raise_for_status()` (status 400..599) and the
`JSONDecodeError` from `response.json()`, returning `None`.  An empty (falsy)
parsed body returns `None`.  Otherwise the function evaluates
`pull_requests[0]['number']` — whose `KeyError`/`TypeError`/`IndexError` are
NOT caught — and returns that value. -/
def get_latest_pr_number (owner repo token : String) (outcome : HttpOutcome) :
    Except PyExc (Option Json) × List NetCall :=
  let calls := [NetCall.listPulls owner repo token 15]
  match outcome with
  | .timeout => (.ok none, calls)
  | .netError => (.ok none, calls)
  | .resp status _text json =>
    if errorStatus status then (.ok none, calls)
    else
      match json with
      | none => (.ok none, calls)
      | some pull_requests =>
        if !pull_requests.truthy then (.ok none, calls)
        else
          match pull_requests.index0 with
          | .error e => (.error e, calls)
          | .ok first =>
            match first.getItem "number" with
            | .error e => (.error e, calls)
            | .ok n => (.ok (some n), calls)

/-- Embedding of `get_pr_diff(owner, repo, pr_number, token)`.

One `requests.get(url, headers, timeout=15)` asking for the diff media type;
every failure (transport, timeout, `raise_for_status`) is caught by
`except requests.exceptions.RequestException` and yields `None`; on success
the raw body text is returned.  No other statement in the `try` block can
raise, so the result is always `.ok`. -/
def get_pr_diff (owner repo : String) (pr_number : Json) (token : String)
    (outcome : HttpOutcome) : Except PyExc (Option String) × List NetCall :=
  let calls := [NetCall.fetchDiff owner repo pr_number token 15]
  match outcome with
  | .timeout => (.ok none, calls)
  | .netError => (.ok none, calls)
  | .resp status text _json =>
    if errorStatus status then (.ok none, calls)
    else (.ok (some text), calls)

/-- The exact prompt string built in `get_gemini_review`.  In the source this
is a plain (non-f-string) triple-quoted literal, so the characters `\x7bdiff\x7d`
are part of the string itself and no interpolation of the `diff` argument
takes place; the string is a constant. -/
def promptTemplate : String :=
  "\n        您是一位資深的 Android 開發架構師與頂尖的程式碼審查專家，精通 Kotlin、Java 與 Android Jetpack。\n        請根據以下的 pull request diff 內容，針對 Android App 開發提供一份專業、嚴謹且有建設性的程式碼審查報告，並使用【繁體中文】和【Markdown格式】進行回覆。\n\n        您的審查應包含以下 Android 開發的重點：\n        1.  **架構與設計模式**：評估是否遵循 MVVM, MVI 等現代 Android 架構。檢查 ViewModel、Repository、UseCase 的職責劃分是否清晰。\n        2.  **生命週期管理 (Lifecycle)**：檢查是否有正確處理 Activity/Fragment 的生命週期，避免記憶體洩漏 (Memory Leaks)，例如：不當持有 Context、未取消的 Coroutines 或 RxJava subscriptions。\n        3.  **UI/UX 實作**：\n            *   **Jetpack Compose**: 檢查 Composable 函數是否高效、可重用且無副作用 (side-effects)。State 管理是否恰當。\n            *   **XML Layouts**: 佈局層級是否過深？是否有效使用 `ConstraintLayout`？\n        4.  **非同步處理**：評估 Coroutines 或 RxJava 的使用是否恰當，是否在正確的 Dispatcher 上執行任務，以及是否有妥善的錯誤處理。\n        5.  **效能與資源**：\n            *   指出可能有效能瓶頸或資源浪費的地方 (例如：主線程上的 I/O 操作、不必要的物件創建)。\n            *   檢查圖片載入、快取策略是否有效率。\n        6.  **Gradle 與相依性**：檢查是否有不推薦使用 (deprecated) 或有安全漏洞的函式庫。相依性管理是否合理。\n        7.  **安全性**：檢查是否存在潛在的安全漏洞，例如：不安全的資料儲存、API Key 洩漏、不當的 Intent 處理等。\n        8.  **Kotlin/Java 最佳實踐**：評估程式碼是否符合 Kotlin/Java 的慣例與風格指南。\n\n        # 請以清晰、條列式的方式提供您的審查意見。\n        # 在報告的最後，請明確總結您是否同意合併此 PR。\n        # *   如果同意，請說明原因，並將所有建議的修改以 TODO 列表的形式呈現。\n        # *   如果不同意，請說明具體原因，以及需要修改的地方。\n        # 請在可能的情況下提供修改後的程式碼範例以供參考。\n        \n        **報告格式要求**：\n        1.  在報告的開頭，請給出一個 **總體評論** (Overall Comments) 的總結。\n        2.  接著，以 **條列式** 的方式，針對具體程式碼提出您的 **發現與建議** (Findings & Suggestions)。\n        3.  對於每個建議，如果可能，請提供精簡的 **程式碼修改範例**。\n        4.  報告應專注於技術層面的分析，保持客觀中立。\n\n\n        --- 以下是 Pull Request 的 diff 內容 ---\n        ```diff\n        \x7bdiff\x7d\n        ```\n        --- diff 內容結束 ---\n        \n        請開始您的 Android Code Review：\n        "

/-- Embedding of `get_gemini_review(diff, api_key)`.

Guard: `if not diff: return None` before any SDK use — no network call.
Then everything (`genai.configure`, model construction, `generate_content`,
`response.text`) sits in a `try ... except Exception`, so no exception can
escape; the call list records whether `generate_content` was reached, and the
submitted prompt is always the constant `promptTemplate`. -/
def get_gemini_review (diff _api_key : String) (outcome : GeminiOutcome) :
    Except PyExc (Option String) × List NetCall :=
  if diff = "" then (.ok none, [])
  else
    match outcome with
    | .excBeforeCall => (.ok none, [])
    | .excDuringCall => (.ok none, [NetCall.geminiCall promptTemplate])
    | .reply t => (.ok (some t), [NetCall.geminiCall promptTemplate])

/-- Embedding of `post_review_to_github(owner, repo, pr_number, token, comment)`.

One `requests.post(url, headers, json={"body": comment}, timeout=30)`.  All
`RequestException`s (transport, timeout, `raise_for_status`, and the
`JSONDecodeError` of `response.json()` on an unparseable success body) are
caught and reported by a printed diagnostic; the returned `Bool` records
whether the success message was printed.  On a non-error response whose JSON
body is not an object, `response.json().get('html_url')` raises an uncaught
`AttributeError`. -/
def post_review_to_github (owner repo : String) (pr_number : Json)
    (token comment : String) (outcome : HttpOutcome) :
    Except PyExc Bool × List NetCall :=
  let calls := [NetCall.postComment owner repo pr_number token comment 30]
  match outcome with
  | .timeout => (.ok false, calls)
  | .netError => (.ok false, calls)
  | .resp status _text json =>
    if errorStatus status then (.ok false, calls)
    else
      match json with
      | none => (.ok false, calls)
      | some (.obj _) => (.ok true, calls)
      | some _ => (.error .attributeError, calls)

/-- The fixed header that `main` prepends to the review text when building the
comment body: `f"### 🤖 Gemini AI Code Review\n\n---\n\n{review}"`. -/
def commentHeader : String := "### 🤖 Gemini AI Code Review\n\n---\n\n"

/-- Diagnostic printed by `main` when a required environment variable is
missing or empty. -/
def envErrorMsg : String :=
  "❌ 錯誤：請確保 .env 檔案中已設定 GITHUB_TOKEN, REPO_OWNER, REPO_NAME, 和 GEMINI_API_KEY。"

/-- Diagnostic printed by `main` when no PR number was obtained. -/
def noPrMsg : String := "無法繼續進行 Code Review，因為沒有獲取到 PR 編號。"

/-- Process environment and external-world behaviour for one run of `main`:
the four environment variables as `os.getenv` reports them (`none` = unset),
and the outcome of each external interaction the run may perform. -/
structure Env where
  github_token : Option String
  repo_owner : Option String
  repo_name : Option String
  gemini_api_key : Option String
  listOutcome : HttpOutcome
  diffOutcome : HttpOutcome
  geminiOutcome : GeminiOutcome
  postOutcome : HttpOutcome

/-- Python truthiness of an `os.getenv` result: `None` and `""` are falsy. -/
def envPresent : Option String → Bool
  | none => false
  | some s => s != ""

/-- The string value of an environment variable known to be present. -/
def envValue : Option String → String
  | none => ""
  | some s => s

/-- Python truthiness of an optional JSON value (`if not pr_number`). -/
def pyTruthyJson : Option Json → Bool
  | none => false
  | some j => j.truthy

/-- Python truthiness of an optional string (`if pr_diff`, `if review`). -/
def pyTruthyStr : Option String → Bool
  | none => false
  | some s => s != ""

/-- Result of one run of `main`: whether it returned normally or an exception
escaped (terminating the process abnormally), the network calls made in
order, and the modelled diagnostics printed. -/
structure MainOut where
  result : Except PyExc Unit
  calls : List NetCall
  prints : List String

/-- The conjunction `all([github_token, repo_owner, repo_name, gemini_api_key])`
tested by `main` before any network call. -/
def envOK (env : Env) : Bool :=
  envPresent env.github_token && envPresent env.repo_owner
    && envPresent env.repo_name && envPresent env.gemini_api_key

/-- Embedding of `main()`: read the four environment variables, abort with a
diagnostic if any is missing/empty, otherwise run the pipeline
lookup → diff fetch → review generation → comment post, each stage gated on
the Python truthiness of the previous stage's result.  An exception escaping
a step escapes `main` as well (there is no try/except in `main`). -/
def main (env : Env) : MainOut :=
  if !envOK env then
    ⟨.ok (), [], [envErrorMsg]⟩
  else
    let github_token := envValue env.github_token
    let repo_owner := envValue env.repo_owner
    let repo_name := envValue env.repo_name
    let gemini_api_key := envValue env.gemini_api_key
    let step1 := get_latest_pr_number repo_owner repo_name github_token env.listOutcome
    match step1.1 with
    | .error e => ⟨.error e, step1.2, []⟩
    | .ok prOpt =>
      if !pyTruthyJson prOpt then ⟨.ok (), step1.2, [noPrMsg]⟩
      else
        let pr_number := prOpt.getD Json.null
        let step2 := get_pr_diff repo_owner repo_name pr_number github_token env.diffOutcome
        match step2.1 with
        | .error e => ⟨.error e, step1.2 ++ step2.2, []⟩
        | .ok diffOpt =>
          if !pyTruthyStr diffOpt then ⟨.ok (), step1.2 ++ step2.2, []⟩
          else
            let pr_diff := diffOpt.getD ""
            let step3 := get_gemini_review pr_diff gemini_api_key env.geminiOutcome
            match step3.1 with
            | .error e => ⟨.error e, step1.2 ++ step2.2 ++ step3.2, []⟩
            | .ok revOpt =>
              if !pyTruthyStr revOpt then ⟨.ok (), step1.2 ++ step2.2 ++ step3.2, []⟩
              else
                let review := revOpt.getD ""
                let github_comment := commentHeader ++ review
                let step4 := post_review_to_github repo_owner repo_name pr_number
                  github_token github_comment env.postOutcome
                match step4.1 with
                | .error e => ⟨.error e, step1.2 ++ step2.2 ++ step3.2 ++ step4.2, []⟩
                | .ok _ => ⟨.ok (), step1.2 ++ step2.2 ++ step3.2 ++ step4.2, []⟩

/-- `charsPrefix nee hay` holds when `nee` is a prefix of `hay`. -/
def charsPrefix : List Char → List Char → Bool
  | [], _ => true
  | _ :: _, [] => false
  | c :: cs, d :: ds => c == d && charsPrefix cs ds

/-- `charsSub nee hay` holds when `nee` occurs contiguously inside `hay`. -/
def charsSub (nee : List Char) : List Char → Bool
  | [] => charsPrefix nee []
  | c :: t => charsPrefix nee (c :: t) || charsSub nee t

/-- Substring occurrence test on strings. -/
def strContains (hay nee : String) : Bool := charsSub nee.toList hay.toList

/-- A listing-endpoint outcome whose processing by `get_latest_pr_number`
stays inside what the source's `except` clause handles: every outcome except
a non-error-status response whose JSON body is truthy but does not have the
`[0]['number']` shape. -/
def listShapeOK : HttpOutcome → Bool
  | .resp s _ (some j) =>
    errorStatus s || !j.truthy ||
      (match j.index0 with
       | .error _ => false
       | .ok first =>
         match first.getItem "number" with
         | .error _ => false
         | .ok _ => true)
  | _ => true

/-- A comment-post outcome whose processing by `post_review_to_github` stays
inside what the source's `except` clause handles: every outcome except a
non-error-status response whose JSON body is not an object. -/
def postShapeOK : HttpOutcome → Bool
  | .resp s _ (some j) =>
    errorStatus s || (match j with | .obj _ => true | _ => false)
  | _ => true

set_option maxRecDepth 40000 in
/-- C1 (code_bug): the prompt submitted to the generative model does NOT
embed the diff.  The template in the source is a plain (non-f) string, so for
every diff the submitted prompt is the constant `promptTemplate`, which still
contains the literal placeholder text `\x7bdiff\x7d` and does not contain the
concrete non-empty diff below — contradicting the claim that the prompt
embeds the diff text verbatim. -/
theorem c1_prompt_is_constant_and_omits_diff :
    (∀ diff key o, (get_gemini_review diff key o).2 = []
        ∨ (get_gemini_review diff key o).2 = [NetCall.geminiCall promptTemplate])
    ∧ (get_gemini_review "diff --git a/App.kt b/App.kt" "k" (.reply "ok")).2
        = [NetCall.geminiCall promptTemplate]
    ∧ strContains promptTemplate "diff --git a/App.kt b/App.kt" = false
    ∧ strContains promptTemplate "\x7bdiff\x7d" = true := by
  refine ⟨?_, rfl, by decide, by decide⟩
  intro diff key o
  unfold get_gemini_review
  split
  · exact Or.inl rfl
  · cases o <;> simp

/-- C2 (confirmed): called with an empty diff string, review generation
returns `None` and performs no network call, for every API key and every
possible behaviour of the Gemini SDK. -/
theorem c2_empty_diff_returns_none_no_call (key : String) (o : GeminiOutcome) :
    get_gemini_review "" key o = (.ok none, []) := rfl

/-- C4 (corrected, counterexample): the claim says a non-2xx status makes
lookup return the absence signal, but `raise_for_status` only raises for
status 400..599: on a final status of 302 (non-2xx) with a parseable list
body, lookup returns the first PR's number, not `None`. -/
theorem c4_counterexample_302_not_absence :
    (get_latest_pr_number "o" "r" "t"
        (.resp 302 "[\x7b\"number\": 5\x7d]" (some (.arr [.obj [("number", .num 5)]])))).1
      = .ok (some (.num 5))
    ∧ 302 / 100 ≠ 2 := ⟨rfl, by decide⟩

/-- C4 (amended): for every listing response, if the parsed body is a
non-empty list and the status is not an HTTP error status (400..599), lookup
returns exactly the `number` field of the first element; on a transport
error, a timeout, an HTTP error status, or an empty list it returns `None`. -/
theorem c4_lookup_first_number_or_absence (owner repo token : String) :
    (∀ s t first rest v, errorStatus s = false →
        Json.getItem first "number" = .ok v →
        (get_latest_pr_number owner repo token
            (.resp s t (some (.arr (first :: rest))))).1 = .ok (some v))
    ∧ (∀ s t j, errorStatus s = true →
        (get_latest_pr_number owner repo token (.resp s t j)).1 = .ok none)
    ∧ (get_latest_pr_number owner repo token .timeout).1 = .ok none
    ∧ (get_latest_pr_number owner repo token .netError).1 = .ok none
    ∧ (∀ s t, errorStatus s = false →
        (get_latest_pr_number owner repo token (.resp s t (some (.arr [])))).1
          = .ok none) := by
  refine ⟨?_, ?_, rfl, rfl, ?_⟩
  · intro s t first rest v hs hv
    simp [get_latest_pr_number, hs, Json.truthy, Json.index0, hv]
  · intro s t j hs
    simp [get_latest_pr_number, hs]
  · intro s t hs
    simp [get_latest_pr_number, hs, Json.truthy]

/-- C4 (witness): concrete instances of the amended lookup theorem — a single
PR numbered 42 in a 200 response is returned exactly, and a 404 yields
absence. -/
theorem c4_lookup_witness :
    (get_latest_pr_number "octo" "hello" "tok"
        (.resp 200 "" (some (.arr [.obj [("number", .num 42)]])))).1
      = .ok (some (.num 42))
    ∧ (get_latest_pr_number "octo" "hello" "tok" (.resp 404 "" none)).1 = .ok none :=
  ⟨(c4_lookup_first_number_or_absence "octo" "hello" "tok").1 200 ""
      (.obj [("number", .num 42)]) [] (.num 42) rfl rfl,
   (c4_lookup_first_number_or_absence "octo" "hello" "tok").2.1 404 "" none rfl⟩

/-- C6 (corrected, counterexample): a 200 listing response whose body is the
valid JSON `[\x7b\x7d]` (one PR object without a `number` field) makes
`get_latest_pr_number` raise a `KeyError` that its
`except requests.exceptions.RequestException` clause does not catch, so an
exception does propagate past that step's boundary. -/
theorem c6_counterexample_keyerror_escapes :
    (get_latest_pr_number "o" "r" "t"
        (.resp 200 "[\x7b\x7d]" (some (.arr [.obj []])))).1
      = .error (.keyError "number") := rfl

/-- C6 (amended): every transport error, timeout, HTTP error status and
malformed (unparseable) JSON body is caught inside the step that performs the
call and reported via an absent result; `get_pr_diff` and `get_gemini_review`
never let any exception escape; only a non-error-status response with an
unexpected JSON shape (lookup body without the `[0]['number']` shape, or a
non-object body at the comment post) escapes as an exception. -/
theorem c6_request_errors_are_caught (owner repo token key diff comment : String)
    (pr : Json) (o : HttpOutcome) (g : GeminiOutcome) :
    (∃ r, (get_pr_diff owner repo pr token o).1 = .ok r)
    ∧ (∃ r, (get_gemini_review diff key g).1 = .ok r)
    ∧ (get_latest_pr_number owner repo token .timeout).1 = .ok none
    ∧ (get_latest_pr_number owner repo token .netError).1 = .ok none
    ∧ (∀ s t j, errorStatus s = true →
        (get_latest_pr_number owner repo token (.resp s t j)).1 = .ok none)
    ∧ (∀ s t, (get_latest_pr_number owner repo token (.resp s t none)).1 = .ok none)
    ∧ (post_review_to_github owner repo pr token comment .timeout).1 = .ok false
    ∧ (post_review_to_github owner repo pr token comment .netError).1 = .ok false
    ∧ (∀ s t j, errorStatus s = true →
        (post_review_to_github owner repo pr token comment (.resp s t j)).1 = .ok false)
    ∧ (∀ s t, (post_review_to_github owner repo pr token comment (.resp s t none)).1
        = .ok false) := by
  refine ⟨?_, ?_, rfl, rfl, ?_, ?_, rfl, rfl, ?_, ?_⟩
  · cases o with
    | timeout => exact ⟨none, rfl⟩
    | netError => exact ⟨none, rfl⟩
    | resp s t j =>
      by_cases hs : errorStatus s = true
      · exact ⟨none, by simp [get_pr_diff, hs]⟩
      · exact ⟨some t, by simp [get_pr_diff, hs]⟩
  · cases g with
    | excBeforeCall => by_cases hd : diff = "" <;> exact ⟨none, by simp [get_gemini_review, hd]⟩
    | excDuringCall => by_cases hd : diff = "" <;> exact ⟨none, by simp [get_gemini_review, hd]⟩
    | reply t =>
      by_cases hd : diff = ""
      · exact ⟨none, by simp [get_gemini_review, hd]⟩
      · exact ⟨some t, by simp [get_gemini_review, hd]⟩
  · intro s t j hs; simp [get_latest_pr_number, hs]
  · intro s t; by_cases hs : errorStatus s = true <;> simp [get_latest_pr_number, hs]
  · intro s t j hs; simp [post_review_to_github, hs]
  · intro s t; by_cases hs : errorStatus s = true <;> simp [post_review_to_github, hs]

/-- C6 (witness): concrete instances of the amended theorem — a 500 at lookup
and a response body that is not valid JSON at the comment post are both
reported as absent results, with no exception. -/
theorem c6_request_errors_witness :
    (get_latest_pr_number "o" "r" "t" (.resp 500 "oops" none)).1 = .ok none
    ∧ (post_review_to_github "o" "r" (.num 1) "t" "hi" (.resp 201 "not json" none)).1
        = .ok false :=
  ⟨(c6_request_errors_are_caught "o" "r" "t" "k" "d" "hi" (.num 1)
      (.resp 500 "oops" none) .excBeforeCall).2.2.2.2.1 500 "oops" none rfl,
   (c6_request_errors_are_caught "o" "r" "t" "k" "d" "hi" (.num 1)
      (.resp 500 "oops" none) .excBeforeCall).2.2.2.2.2.2.2.2.2 201 "not json"⟩

/-- C8 (confirmed): every GitHub read (GET) call is issued with the fixed
timeout value 15 and the comment post (POST) with 30, for every outcome, and
a timed-out call is treated as a failure of its step (absent result / failure
report). -/
theorem c8_fixed_timeouts (owner repo token comment : String) (pr : Json)
    (o : HttpOutcome) :
    (get_latest_pr_number owner repo token o).2 = [.listPulls owner repo token 15]
    ∧ (get_pr_diff owner repo pr token o).2 = [.fetchDiff owner repo pr token 15]
    ∧ (post_review_to_github owner repo pr token comment o).2
        = [.postComment owner repo pr token comment 30]
    ∧ (get_latest_pr_number owner repo token .timeout).1 = .ok none
    ∧ (get_pr_diff owner repo pr token .timeout).1 = .ok none
    ∧ (post_review_to_github owner repo pr token comment .timeout).1 = .ok false := by
  refine ⟨?_, ?_, ?_, rfl, rfl, rfl⟩ <;>
    cases o <;>
      simp [get_latest_pr_number, get_pr_diff, post_review_to_github] <;>
        (repeat' split) <;> rfl

theorem lookup_calls (owner repo token : String) (o : HttpOutcome) :
    (get_latest_pr_number owner repo token o).2
      = [NetCall.listPulls owner repo token 15] := by
  cases o <;> simp [get_latest_pr_number] <;> (repeat' split) <;> rfl

theorem diff_calls (owner repo : String) (pr : Json) (token : String) (o : HttpOutcome) :
    (get_pr_diff owner repo pr token o).2
      = [NetCall.fetchDiff owner repo pr token 15] := by
  cases o <;> simp [get_pr_diff] <;> (repeat' split) <;> rfl

theorem post_calls (owner repo : String) (pr : Json) (token comment : String)
    (o : HttpOutcome) :
    (post_review_to_github owner repo pr token comment o).2
      = [NetCall.postComment owner repo pr token comment 30] := by
  cases o <;> simp [post_review_to_github] <;> (repeat' split) <;> rfl

theorem gemini_calls_cases (diff key : String) (o : GeminiOutcome) :
    (get_gemini_review diff key o).2 = []
      ∨ (get_gemini_review diff key o).2 = [NetCall.geminiCall promptTemplate] := by
  by_cases hd : diff = "" <;> cases o <;> simp [get_gemini_review, hd]

theorem gemini_ok_reply (diff key R : String) (o : GeminiOutcome)
    (h : (get_gemini_review diff key o).1 = .ok (some R)) : o = .reply R := by
  by_cases hd : diff = "" <;> cases o <;>
    simp_all [get_gemini_review]

theorem gemini_never_error (diff key : String) (o : GeminiOutcome) :
    ∃ r, (get_gemini_review diff key o).1 = .ok r := by
  by_cases hd : diff = "" <;> cases o <;> simp [get_gemini_review, hd]

theorem diff_never_error (owner repo : String) (pr : Json) (token : String)
    (o : HttpOutcome) :
    ∃ r, (get_pr_diff owner repo pr token o).1 = .ok r := by
  cases o with
  | timeout => exact ⟨none, rfl⟩
  | netError => exact ⟨none, rfl⟩
  | resp s t j =>
    by_cases hs : errorStatus s = true
    · exact ⟨none, by simp [get_pr_diff, hs]⟩
    · exact ⟨some t, by simp [get_pr_diff, hs]⟩

theorem lookup_ok_of_shapeOK (owner repo token : String) (o : HttpOutcome)
    (h : listShapeOK o = true) :
    ∃ r, (get_latest_pr_number owner repo token o).1 = .ok r := by
  cases o with
  | timeout => exact ⟨none, rfl⟩
  | netError => exact ⟨none, rfl⟩
  | resp s t j =>
    cases j with
    | none =>
      by_cases hs : errorStatus s = true <;> exact ⟨none, by simp [get_latest_pr_number, hs]⟩
    | some pj =>
      by_cases hs : errorStatus s = true
      · exact ⟨none, by simp [get_latest_pr_number, hs]⟩
      · by_cases ht : pj.truthy = true
        · simp only [listShapeOK, hs, ht, Bool.false_or, Bool.not_true] at h
          rcases h0 : pj.index0 with e | first
          · simp [h0] at h
          · simp only [h0] at h
            rcases hn : first.getItem "number" with e | v
            · simp [hn] at h
            · exact ⟨some v, by simp [get_latest_pr_number, hs, ht, h0, hn]⟩
        · exact ⟨none, by simp [get_latest_pr_number, hs, ht]⟩

theorem post_ok_of_shapeOK (owner repo : String) (pr : Json) (token comment : String)
    (o : HttpOutcome) (h : postShapeOK o = true) :
    ∃ b, (post_review_to_github owner repo pr token comment o).1 = .ok b := by
  cases o with
  | timeout => exact ⟨false, rfl⟩
  | netError => exact ⟨false, rfl⟩
  | resp s t j =>
    by_cases hs : errorStatus s = true
    · exact ⟨false, by simp [post_review_to_github, hs]⟩
    · cases j with
      | none => exact ⟨false, by simp [post_review_to_github, hs]⟩
      | some pj =>
        cases pj with
        | obj kvs => exact ⟨true, by simp [post_review_to_github, hs]⟩
        | null => simp [postShapeOK, hs] at h
        | bool b => simp [postShapeOK, hs] at h
        | num n => simp [postShapeOK, hs] at h
        | str s2 => simp [postShapeOK, hs] at h
        | arr xs => simp [postShapeOK, hs] at h

theorem pyTruthyJson_some (o : Option Json) (h : pyTruthyJson o = true) :
    ∃ j, o = some j ∧ j.truthy = true := by
  cases o with
  | none => simp [pyTruthyJson] at h
  | some j => exact ⟨j, rfl, h⟩

theorem pyTruthyStr_some (o : Option String) (h : pyTruthyStr o = true) :
    ∃ s, o = some s ∧ s ≠ "" := by
  cases o with
  | none => simp [pyTruthyStr] at h
  | some s => exact ⟨s, rfl, by simpa [pyTruthyStr] using h⟩

/-- C7 (confirmed): when any of the four required environment values is
missing or empty, `main` prints the diagnostic and returns having made no
network call; when all four are present it proceeds to the pipeline, whose
first network call is the PR lookup. -/
theorem c7_env_validation (env : Env) :
    (envOK env = false → main env = ⟨.ok (), [], [envErrorMsg]⟩)
    ∧ (envOK env = true → (main env).calls.head?
        = some (NetCall.listPulls (envValue env.repo_owner) (envValue env.repo_name)
            (envValue env.github_token) 15)) := by
  constructor
  · intro h
    simp [main, h]
  · intro h
    simp only [main, h, Bool.not_true, Bool.false_eq_true, if_false]
    repeat' split
    all_goals simp [lookup_calls]

/-- C7 (witness): a run with `GITHUB_TOKEN` unset aborts with the diagnostic
and makes no network call; a run with all four variables set issues the PR
lookup as its first network call. -/
theorem c7_env_validation_witness :
    main ⟨none, some "o", some "r", some "k", .timeout, .timeout, .excBeforeCall, .timeout⟩
      = ⟨.ok (), [], [envErrorMsg]⟩
    ∧ (main ⟨some "t", some "o", some "r", some "k",
        .timeout, .timeout, .excBeforeCall, .timeout⟩).calls.head?
        = some (NetCall.listPulls "o" "r" "t" 15) :=
  ⟨(c7_env_validation _).1 rfl, (c7_env_validation _).2 rfl⟩

/-- C10 (confirmed): the orchestrator treats a fetched empty diff exactly
like a fetch failure — the pipeline halts right after the fetch call, before
any review-generation call, so `get_gemini_review`'s own empty-diff guard is
unreachable from `main` — and a looked-up PR number equal to 0 halts the
pipeline with exactly the same outcome as a lookup absence (only the lookup
call, the missing-PR diagnostic, normal return). -/
theorem c10_falsy_results_halt_pipeline (env : Env) (pr : Json)
    (henv : envOK env = true)
    (h1 : (get_latest_pr_number (envValue env.repo_owner) (envValue env.repo_name)
        (envValue env.github_token) env.listOutcome).1 = .ok (some pr)) :
    (∀ s t j, pr.truthy = true → env.diffOutcome = .resp s t j →
        errorStatus s = false → t = "" →
        main env = ⟨.ok (),
          [NetCall.listPulls (envValue env.repo_owner) (envValue env.repo_name)
              (envValue env.github_token) 15,
           NetCall.fetchDiff (envValue env.repo_owner) (envValue env.repo_name) pr
              (envValue env.github_token) 15], []⟩)
    ∧ (pr = .num 0 →
        main env = ⟨.ok (),
          [NetCall.listPulls (envValue env.repo_owner) (envValue env.repo_name)
              (envValue env.github_token) 15], [noPrMsg]⟩) := by
  constructor
  · intro s t j hpr hd hs ht
    simp only [main, henv, Bool.not_true, Bool.false_eq_true, if_false]
    simp only [h1]
    simp [pyTruthyJson, hpr, hd, get_pr_diff, hs, ht, pyTruthyStr,
      lookup_calls, diff_calls]
  · intro h0
    subst h0
    simp only [main, henv, Bool.not_true, Bool.false_eq_true, if_false]
    simp only [h1]
    simp [pyTruthyJson, Json.truthy, lookup_calls]

/-- C10 (witness): with PR #7 and a successfully fetched empty diff the run
stops after the two GitHub reads; with PR number 0 the run stops after the
lookup with the missing-PR diagnostic. -/
theorem c10_falsy_results_witness :
    main ⟨some "t", some "o", some "r", some "k",
        .resp 200 "" (some (.arr [.obj [("number", .num 7)]])),
        .resp 200 "" none, .reply "R", .timeout⟩
      = ⟨.ok (), [.listPulls "o" "r" "t" 15, .fetchDiff "o" "r" (.num 7) "t" 15], []⟩
    ∧ main ⟨some "t", some "o", some "r", some "k",
        .resp 200 "" (some (.arr [.obj [("number", .num 0)]])),
        .timeout, .excBeforeCall, .timeout⟩
      = ⟨.ok (), [.listPulls "o" "r" "t" 15], [noPrMsg]⟩ :=
  ⟨(c10_falsy_results_halt_pipeline
      ⟨some "t", some "o", some "r", some "k",
        .resp 200 "" (some (.arr [.obj [("number", .num 7)]])),
        .resp 200 "" none, .reply "R", .timeout⟩
      (.num 7) rfl rfl).1 200 "" none rfl rfl rfl rfl,
   (c10_falsy_results_halt_pipeline
      ⟨some "t", some "o", some "r", some "k",
        .resp 200 "" (some (.arr [.obj [("number", .num 0)]])),
        .timeout, .excBeforeCall, .timeout⟩
      (.num 0) rfl rfl).2 rfl⟩

/-- C3 (confirmed): whenever diff fetch succeeds (with a non-empty diff, the
only case in which the orchestrator continues) and review generation succeeds
with review text `R` (non-empty, the only case in which the orchestrator
posts), the comment body submitted to the PR is exactly
`commentHeader ++ R` — the fixed header followed by the review text,
verbatim, and nothing else — and it is the only comment posted. -/
theorem c3_posted_body_is_header_plus_review (env : Env) (pr : Json) (D R : String)
    (henv : envOK env = true)
    (h1 : (get_latest_pr_number (envValue env.repo_owner) (envValue env.repo_name)
        (envValue env.github_token) env.listOutcome).1 = .ok (some pr))
    (hpr : pr.truthy = true)
    (h2 : (get_pr_diff (envValue env.repo_owner) (envValue env.repo_name) pr
        (envValue env.github_token) env.diffOutcome).1 = .ok (some D))
    (hD : D ≠ "")
    (hg : env.geminiOutcome = .reply R)
    (hR : R ≠ "") :
    (main env).calls
      = [NetCall.listPulls (envValue env.repo_owner) (envValue env.repo_name)
           (envValue env.github_token) 15,
         NetCall.fetchDiff (envValue env.repo_owner) (envValue env.repo_name) pr
           (envValue env.github_token) 15,
         NetCall.geminiCall promptTemplate,
         NetCall.postComment (envValue env.repo_owner) (envValue env.repo_name) pr
           (envValue env.github_token) (commentHeader ++ R) 30] := by
  simp only [main, henv, Bool.not_true, Bool.false_eq_true, if_false]
  simp only [h1, pyTruthyJson, hpr, Bool.not_true, Bool.false_eq_true, if_false,
    Option.getD_some]
  simp only [h2, pyTruthyStr, Option.getD_some]
  rw [show (D != "") = true from by simp [hD]]
  simp only [Bool.not_true, Bool.false_eq_true, if_false]
  rw [show get_gemini_review D (envValue env.gemini_api_key) env.geminiOutcome
      = (.ok (some R), [NetCall.geminiCall promptTemplate]) from by
    simp [get_gemini_review, hg, hD]]
  simp only [pyTruthyStr, Option.getD_some]
  rw [show (R != "") = true from by simp [hR]]
  simp only [Bool.not_true, Bool.false_eq_true, if_false]
  split <;> simp [lookup_calls, diff_calls, post_calls]

/-- C3 (witness): end-to-end scenario — one open PR #42, a non-empty diff,
the model replies "LGTM"; the single posted comment body is exactly the
header followed by "LGTM". -/
theorem c3_posted_body_witness :
    (main ⟨some "t", some "o", some "r", some "k",
        .resp 200 "" (some (.arr [.obj [("number", .num 42)]])),
        .resp 200 "diff --git a b" none, .reply "LGTM",
        .resp 201 "" (some (.obj []))⟩).calls
      = [.listPulls "o" "r" "t" 15,
         .fetchDiff "o" "r" (.num 42) "t" 15,
         .geminiCall promptTemplate,
         .postComment "o" "r" (.num 42) "t" (commentHeader ++ "LGTM") 30] :=
  c3_posted_body_is_header_plus_review
    ⟨some "t", some "o", some "r", some "k",
      .resp 200 "" (some (.arr [.obj [("number", .num 42)]])),
      .resp 200 "diff --git a b" none, .reply "LGTM",
      .resp 201 "" (some (.obj []))⟩
    (.num 42) "diff --git a b" "LGTM" rfl rfl rfl rfl
    (by decide) rfl (by decide)

/-- C5 (confirmed): the pipeline is strictly linear and short-circuits.
With all environment variables present: when lookup returns absence the run's
network calls are exactly the one lookup call (no fetch, no review, no post);
a review-generation call occurs only if lookup succeeded with a truthy PR
number and diff fetch succeeded with a non-empty diff; a comment post occurs
only if review generation succeeded with a non-empty review; a diff fetch
occurs only if lookup succeeded with a truthy PR number. -/
theorem c5_pipeline_linear_short_circuit (env : Env) (henv : envOK env = true) :
    ((get_latest_pr_number (envValue env.repo_owner) (envValue env.repo_name)
          (envValue env.github_token) env.listOutcome).1 = .ok none →
        (main env).calls = [NetCall.listPulls (envValue env.repo_owner)
          (envValue env.repo_name) (envValue env.github_token) 15])
    ∧ (∀ p, NetCall.geminiCall p ∈ (main env).calls →
        ∃ pr D, (get_latest_pr_number (envValue env.repo_owner) (envValue env.repo_name)
              (envValue env.github_token) env.listOutcome).1 = .ok (some pr)
          ∧ pr.truthy = true
          ∧ (get_pr_diff (envValue env.repo_owner) (envValue env.repo_name) pr
              (envValue env.github_token) env.diffOutcome).1 = .ok (some D)
          ∧ D ≠ "")
    ∧ (∀ o r pr2 t body tmo, NetCall.postComment o r pr2 t body tmo ∈ (main env).calls →
        ∃ R, env.geminiOutcome = .reply R ∧ R ≠ "")
    ∧ (∀ o r pr2 t tmo, NetCall.fetchDiff o r pr2 t tmo ∈ (main env).calls →
        ∃ pr, (get_latest_pr_number (envValue env.repo_owner) (envValue env.repo_name)
              (envValue env.github_token) env.listOutcome).1 = .ok (some pr)
          ∧ pr.truthy = true) := by
  rcases hl : (get_latest_pr_number (envValue env.repo_owner) (envValue env.repo_name)
      (envValue env.github_token) env.listOutcome).1 with e | prOpt
  · refine ⟨?_, ?_, ?_, ?_⟩
    · intro h; simp at h
    · intro p hp; simp [main, henv, hl, lookup_calls] at hp
    · intro o r pr2 t body tmo hp; simp [main, henv, hl, lookup_calls] at hp
    · intro o r pr2 t tmo hp; simp [main, henv, hl, lookup_calls] at hp
  · cases prOpt with
    | none =>
      refine ⟨?_, ?_, ?_, ?_⟩
      · intro _; simp [main, henv, hl, pyTruthyJson, lookup_calls]
      · intro p hp; simp [main, henv, hl, pyTruthyJson, lookup_calls] at hp
      · intro o r pr2 t body tmo hp
        simp [main, henv, hl, pyTruthyJson, lookup_calls] at hp
      · intro o r pr2 t tmo hp
        simp [main, henv, hl, pyTruthyJson, lookup_calls] at hp
    | some pr =>
      cases hpr : pr.truthy with
      | false =>
        refine ⟨?_, ?_, ?_, ?_⟩
        · intro h; simp at h
        · intro p hp
          simp [main, henv, hl, pyTruthyJson, hpr, lookup_calls] at hp
        · intro o r pr2 t body tmo hp
          simp [main, henv, hl, pyTruthyJson, hpr, lookup_calls] at hp
        · intro o r pr2 t tmo hp
          simp [main, henv, hl, pyTruthyJson, hpr, lookup_calls] at hp
      | true =>
        rcases hd : (get_pr_diff (envValue env.repo_owner) (envValue env.repo_name) pr
            (envValue env.github_token) env.diffOutcome).1 with e2 | diffOpt
        · refine ⟨?_, ?_, ?_, ?_⟩
          · intro h; simp at h
          · intro p hp
            simp [main, henv, hl, pyTruthyJson, hpr, hd, lookup_calls, diff_calls] at hp
          · intro o r pr2 t body tmo hp
            simp [main, henv, hl, pyTruthyJson, hpr, hd, lookup_calls, diff_calls] at hp
          · intro o r pr2 t tmo hp
            exact ⟨pr, rfl, hpr⟩
        · cases hdo : pyTruthyStr diffOpt with
          | false =>
            refine ⟨?_, ?_, ?_, ?_⟩
            · intro h; simp at h
            · intro p hp
              simp [main, henv, hl, pyTruthyJson, hpr, hd, hdo, lookup_calls,
                diff_calls] at hp
            · intro o r pr2 t body tmo hp
              simp [main, henv, hl, pyTruthyJson, hpr, hd, hdo, lookup_calls,
                diff_calls] at hp
            · intro o r pr2 t tmo hp
              exact ⟨pr, rfl, hpr⟩
          | true =>
            rcases pyTruthyStr_some _ hdo with ⟨D, rfl, hD⟩
            refine ⟨?_, ?_, ?_, ?_⟩
            · intro h; simp at h
            · intro p hp
              exact ⟨pr, D, rfl, hpr, hd, hD⟩
            · intro o r pr2 t body tmo hp
              rcases hg : (get_gemini_review D (envValue env.gemini_api_key)
                  env.geminiOutcome).1 with e3 | revOpt
              · rcases gemini_calls_cases D (envValue env.gemini_api_key)
                    env.geminiOutcome with hc | hc <;>
                  simp [main, henv, hl, pyTruthyJson, hpr, hd, hdo, hg, hc,
                    lookup_calls, diff_calls] at hp
              · cases hro : pyTruthyStr revOpt with
                | false =>
                  rcases gemini_calls_cases D (envValue env.gemini_api_key)
                      env.geminiOutcome with hc | hc <;>
                    simp [main, henv, hl, pyTruthyJson, hpr, hd, hdo, hg, hro, hc,
                      lookup_calls, diff_calls] at hp
                | true =>
                  rcases pyTruthyStr_some _ hro with ⟨R, rfl, hR⟩
                  exact ⟨R, gemini_ok_reply D (envValue env.gemini_api_key) R
                    env.geminiOutcome hg, hR⟩
            · intro o r pr2 t tmo hp
              exact ⟨pr, rfl, hpr⟩

/-- C5 (witness): with all variables set and an empty open-PR list, the run
performs exactly the one lookup call: no diff fetch, no review call, no
comment post. -/
theorem c5_pipeline_witness :
    (main ⟨some "t", some "o", some "r", some "k",
        .resp 200 "[]" (some (.arr [])), .timeout, .excBeforeCall, .timeout⟩).calls
      = [NetCall.listPulls "o" "r" "t" 15] :=
  (c5_pipeline_linear_short_circuit
      ⟨some "t", some "o", some "r", some "k",
        .resp 200 "[]" (some (.arr [])), .timeout, .excBeforeCall, .timeout⟩
      rfl).1 rfl

/-- C9 (corrected, counterexample): with all environment variables set and a
200 listing response whose JSON body is `[3]`, `pull_requests[0]['number']`
raises a `TypeError` that nothing catches, so the process terminates with an
uncaught exception (abnormal, non-success exit), not a normal return. -/
theorem c9_counterexample_uncaught_exception :
    (main ⟨some "t", some "o", some "r", some "k",
        .resp 200 "[3]" (some (.arr [.num 3])), .timeout, .excBeforeCall,
        .timeout⟩).result
      = .error .typeError := rfl

/-- C9 (amended): no code path calls exit with a distinct code, and on every
run in which no step raises an uncaught exception — that is, whenever the
listing and comment-post responses have the shapes the code expects
(`listShapeOK`, `postShapeOK`); every timeout, transport error, error status
and malformed body qualifies — `main` returns normally (implicit success
exit code), whether or not the pipeline completed; handled failures are
reported only via printed diagnostics. -/
theorem c9_normal_return_unless_bad_shape (env : Env)
    (hl : listShapeOK env.listOutcome = true)
    (hp : postShapeOK env.postOutcome = true) :
    (main env).result = .ok () := by
  cases henv : envOK env with
  | false => simp [main, henv]
  | true =>
    rcases lookup_ok_of_shapeOK (envValue env.repo_owner) (envValue env.repo_name)
        (envValue env.github_token) env.listOutcome hl with ⟨r1, h1⟩
    simp only [main, henv, Bool.not_true, Bool.false_eq_true, if_false, h1]
    cases r1 with
    | none => simp [pyTruthyJson]
    | some pr =>
      cases hpr : pr.truthy with
      | false => simp [pyTruthyJson, hpr]
      | true =>
        simp only [pyTruthyJson, hpr, Bool.not_true, Bool.false_eq_true, if_false,
          Option.getD_some]
        rcases diff_never_error (envValue env.repo_owner) (envValue env.repo_name) pr
            (envValue env.github_token) env.diffOutcome with ⟨r2, h2⟩
        simp only [h2]
        cases r2 with
        | none => simp [pyTruthyStr]
        | some D =>
          cases hdo : pyTruthyStr (some D) with
          | false => simp [hdo]
          | true =>
            simp only [hdo, Bool.not_true, Bool.false_eq_true, if_false,
              Option.getD_some]
            rcases gemini_never_error D (envValue env.gemini_api_key)
                env.geminiOutcome with ⟨r3, h3⟩
            simp only [h3]
            cases r3 with
            | none => simp [pyTruthyStr]
            | some R =>
              cases hro : pyTruthyStr (some R) with
              | false => simp [hro]
              | true =>
                simp only [hro, Bool.not_true, Bool.false_eq_true, if_false,
                  Option.getD_some]
                rcases post_ok_of_shapeOK (envValue env.repo_owner)
                    (envValue env.repo_name) pr (envValue env.github_token)
                    (commentHeader ++ R) env.postOutcome hp with ⟨b, h4⟩
                simp [h4]

/-- C9 (witness): a fully successful run returns normally. -/
theorem c9_normal_return_witness :
    (main ⟨some "t", some "o", some "r", some "k",
        .resp 200 "" (some (.arr [.obj [("number", .num 42)]])),
        .resp 200 "diff --git a b" none, .reply "LGTM",
        .resp 201 "" (some (.obj []))⟩).result = .ok () :=
  c9_normal_return_unless_bad_shape
    ⟨some "t", some "o", some "r", some "k",
      .resp 200 "" (some (.arr [.obj [("number", .num 42)]])),
      .resp 200 "diff --git a b" none, .reply "LGTM",
      .resp 201 "" (some (.obj []))⟩ rfl rfl

end CodeReviewer
